import Mathlib

/-!
Verification of the pyFsl wrapper package (devhliu/pyconnectome, pyfsl).

The repository wraps the external FSL command-line toolkit.  The sources
available are `pyfsl/info.py` (package metadata) and the test suite
`pyfsl/tests/tests_utils/test_filetools.py`, which pins down the observable
behaviour of `pyfsl.utils.filetools.fslreorient2std`, `apply_mask` and the
`pyfsl.wrapper.FSLWrapper` invoker (subprocess argument vectors, environment
handling and call ordering).  The wrapper and helper modules themselves are
not among the sources, so their definitions below are modelled from the
specification's contract, constrained by the expectations recorded in the
test suite.
-/

namespace PyFsl

/-- The outcome of one subprocess: captured standard output, captured
standard error, and the exit code, as returned by `communicate` plus
`returncode` in the Python sources. -/
structure ProcResult where
  stdout : String
  stderr : String
  returncode : Int
deriving DecidableEq

/-- One subprocess invocation as recorded by the test suite's `Popen` mock:
the argument vector and the environment mapping passed to the child.  The
environment mapping is the complete environment of the child process. -/
structure Invocation where
  argv : List String
  env : List (String × String)
deriving DecidableEq

/-- An environment mapping, a list of KEY/VALUE pairs. -/
abbrev EnvMap := List (String × String)

/-- The ambient world the wrapper interacts with: which paths exist on the
filesystem (`os.path.isfile`), what sourcing a shell configuration file
yields (`None` when the script is unreadable, otherwise the shell's exit
code and the captured output of `env`), and what each spawned subprocess
returns. -/
structure World where
  isfile : String → Bool
  shellSource : String → Option (Int × String)
  exec : Invocation → ProcResult

/-- The error taxonomy of the wrapper: a required input path that does not
exist (raised as `ValueError` in the Python sources), a tool `which` cannot
locate, a tool exiting non-zero (carrying the captured stderr and the exit
code), and a configuration script that cannot be read or fails to
execute. -/
inductive FslError where
  | invalidInput : String → FslError
  | missingTool : String → FslError
  | executionError : String → Int → FslError
  | configurationError : FslError
deriving DecidableEq

/-- Whether an error is the invalid-input (`ValueError`) case. -/
def FslError.isInvalidInput : FslError → Bool
  | .invalidInput _ => true
  | _ => false

/-- The observable side effects of one helper call: the subprocess
invocations issued, in order, and how many times the environment-resolution
step (`FSLWrapper._fsl_version_check`) ran. -/
structure RunState where
  calls : List Invocation
  envResolutions : Nat
deriving DecidableEq

/-- The state at the start of a helper call: no subprocess spawned, no
environment resolution performed. -/
def initState : RunState := ⟨[], 0⟩

/-- Split a character list at every occurrence of the separator `c`;
the line structure of a text, with `c` the newline character. -/
def splitOnChar (c : Char) : List Char → List (List Char)
  | [] => [[]]
  | x :: xs =>
      match splitOnChar c xs, decide (x = c) with
      | r, true => [] :: r
      | [], false => [[x]]
      | y :: ys, false => (x :: y) :: ys

/-- Split a character list at the first `=` into key and value; `none` when
no `=` occurs. -/
def splitKeyValue : List Char → Option (List Char × List Char)
  | [] => none
  | x :: xs =>
      if x = '=' then some ([], xs)
      else
        match splitKeyValue xs with
        | none => none
        | some (k, v) => some (x :: k, v)

/-- Parse one line of `env` output: `KEY=VALUE` splits at the first `=`;
lines without `=` are dropped. -/
def parseEnvLine (line : List Char) : Option (String × String) :=
  match splitKeyValue line with
  | none => none
  | some (k, v) => some (⟨k⟩, ⟨v⟩)

/-- Parse the captured output of `env` into an environment mapping, line by
line. -/
def parseEnvOutput (out : String) : EnvMap :=
  (splitOnChar (Char.ofNat 10) out.data).filterMap parseEnvLine

namespace FSLWrapper

/-- Modelled from the spec: `pyfsl/wrapper.py` is absent from the sources.
Building the environment mapping from the shell configuration script: the
script is sourced through a shell and the output of `env` is parsed into
KEY=VALUE pairs; a `ConfigurationError` is raised when the script is
unreadable or the shell exits non-zero. -/
def resolveEnv (w : World) (shfile : String) : Except FslError EnvMap :=
  match w.shellSource shfile with
  | none => .error .configurationError
  | some (code, out) =>
      if code = 0 then .ok (parseEnvOutput out)
      else .error .configurationError

/-- Modelled from the spec: `FSLWrapper._fsl_version_check`, the
environment-resolution step, absent from the sources.  It runs once when the
wrapper is put to use; when no environment mapping was supplied it sources
the configuration script, otherwise it keeps the supplied mapping.  Each run
bumps the resolution counter the tests observe through their mock. -/
def fsl_version_check (w : World) (shfile : String) (supplied : Option EnvMap)
    (s : RunState) : Except FslError EnvMap × RunState :=
  let s1 : RunState := { s with envResolutions := s.envResolutions + 1 }
  match supplied with
  | some e => (.ok e, s1)
  | none => (resolveEnv w shfile, s1)

/-- Modelled from the spec: `FSLWrapper` availability check, absent from the
sources.  Spawns `which <tool>` under the resolved environment and raises a
`MissingToolError` when the lookup exits non-zero or prints nothing. -/
def check_install (w : World) (environment : EnvMap) (tool : String)
    (s : RunState) : Except FslError Unit × RunState :=
  let inv : Invocation := ⟨["which", tool], environment⟩
  let res := w.exec inv
  let s1 : RunState := { s with calls := s.calls ++ [inv] }
  if res.returncode ≠ 0 ∨ res.stdout = "" then (.error (.missingTool tool), s1)
  else (.ok (), s1)

/-- Modelled from the spec: `FSLWrapper` execution, absent from the sources.
Spawns `<tool> <args...>` under the resolved environment, waits for it,
captures stdout and stderr, and raises an `ExecutionError` carrying the
captured stderr and the exit code when the tool exits non-zero. -/
def run (w : World) (environment : EnvMap) (tool : String) (args : List String)
    (s : RunState) : Except FslError ProcResult × RunState :=
  let inv : Invocation := ⟨tool :: args, environment⟩
  let res := w.exec inv
  let s1 : RunState := { s with calls := s.calls ++ [inv] }
  if res.returncode = 0 then (.ok res, s1)
  else (.error (.executionError res.stderr res.returncode), s1)

end FSLWrapper

/-- Modelled from the spec: the common body of the helper functions of
`pyfsl/utils/filetools.py`, absent from the sources.  After input
validation a helper resolves the environment once, verifies the tool with
`check_install`, delegates to `run`, and returns the expected output path
without checking that the output file was produced. -/
def runTool (w : World) (tool : String) (args : List String) (fslconfig : String)
    (output_image : String) : Except FslError String × RunState :=
  match FSLWrapper.fsl_version_check w fslconfig none initState with
  | (.error e, s) => (.error e, s)
  | (.ok environment, s) =>
      match FSLWrapper.check_install w environment tool s with
      | (.error e, s1) => (.error e, s1)
      | (.ok _, s1) =>
          match FSLWrapper.run w environment tool args s1 with
          | (.error e, s2) => (.error e, s2)
          | (.ok _, s2) => (.ok output_image, s2)

/-- Modelled from the spec: `pyfsl.utils.filetools.fslreorient2std`, absent
from the sources.  Validates that the input image exists (one `isfile`
check, per the test mock), then invokes `fslreorient2std <input> <output>`
through the wrapper and returns the output path. -/
def fslreorient2std (w : World) (input_image output_image fslconfig : String) :
    Except FslError String × RunState :=
  if w.isfile input_image then
    runTool w "fslreorient2std" [input_image, output_image] fslconfig output_image
  else
    (.error (.invalidInput input_image), initState)

/-- Modelled from the spec: `pyfsl.utils.filetools.apply_mask`, absent from
the sources.  Validates that the input image and then the mask image exist
(two `isfile` checks, per the test mock), then invokes
`fslmaths <input> -mas <mask> <output>` through the wrapper and returns the
output path. -/
def apply_mask (w : World) (input_image mask_image output_image fslconfig : String) :
    Except FslError String × RunState :=
  if w.isfile input_image then
    if w.isfile mask_image then
      runTool w "fslmaths" [input_image, "-mas", mask_image, output_image]
        fslconfig output_image
    else
      (.error (.invalidInput mask_image), initState)
  else
    (.error (.invalidInput input_image), initState)

/-- A concrete world matching the test fixtures: `/a/in.nii` and
`/a/mask.nii` exist, sourcing any configuration script succeeds with empty
`env` output (the tests mock the resolved environment to `{}`), and every
subprocess exits 0 with the mocked output. -/
def demoWorld : World where
  isfile := fun p => p == "/a/in.nii" || p == "/a/mask.nii"
  shellSource := fun _ => some (0, "")
  exec := fun _ => ⟨"mock_OK", "mock_NONE", 0⟩

/-- A world in which no file exists, no configuration script is readable and
every subprocess fails. -/
def emptyWorld : World where
  isfile := fun _ => false
  shellSource := fun _ => none
  exec := fun _ => ⟨"", "", 1⟩

/-- The `which <tool>` lookup invocation under environment `e`. -/
def whichInv (tool : String) (e : EnvMap) : Invocation :=
  ⟨["which", tool], e⟩

/-- The execution invocation of `tool` with arguments `args` under
environment `e`. -/
def toolInv (tool : String) (args : List String) (e : EnvMap) : Invocation :=
  ⟨tool :: args, e⟩

end PyFsl

namespace PyFslInfo

/-- Major version component from `pyfsl/info.py`. -/
def version_major : Nat := 1

/-- Minor version component from `pyfsl/info.py`. -/
def version_minor : Nat := 0

/-- Micro version component from `pyfsl/info.py`. -/
def version_micro : Nat := 0

/-- The `"{0}.{1}.{2}".format(...)` expression of `pyfsl/info.py`. -/
def formatVersion (a b c : Nat) : String :=
  toString a ++ "." ++ toString b ++ "." ++ toString c

/-- `__version__` from `pyfsl/info.py`. -/
def version_string : String :=
  formatVersion version_major version_minor version_micro

end PyFslInfo

namespace PyFsl

/-- Unfolding of `runTool`: the result and the recorded side effects on each
of the four control paths (environment resolution fails; tool lookup fails;
execution fails; success). -/
theorem runTool_eq (w : World) (tool : String) (args : List String)
    (conf out : String) :
    runTool w tool args conf out =
      match FSLWrapper.resolveEnv w conf with
      | .error e => (.error e, ⟨[], 1⟩)
      | .ok env =>
          if (w.exec (whichInv tool env)).returncode ≠ 0 ∨
              (w.exec (whichInv tool env)).stdout = "" then
            (.error (.missingTool tool), ⟨[whichInv tool env], 1⟩)
          else if (w.exec (toolInv tool args env)).returncode = 0 then
            (.ok out, ⟨[whichInv tool env, toolInv tool args env], 1⟩)
          else
            (.error (.executionError (w.exec (toolInv tool args env)).stderr
                (w.exec (toolInv tool args env)).returncode),
              ⟨[whichInv tool env, toolInv tool args env], 1⟩) := by
  unfold runTool FSLWrapper.fsl_version_check FSLWrapper.check_install FSLWrapper.run
  cases h : FSLWrapper.resolveEnv w conf with
  | error e => simp [initState]
  | ok env =>
      simp only [initState, whichInv, toolInv]
      by_cases hc : (w.exec ⟨["which", tool], env⟩).returncode ≠ 0 ∨
          (w.exec ⟨["which", tool], env⟩).stdout = ""
      · simp [hc]
      · by_cases hr : (w.exec ⟨tool :: args, env⟩).returncode = 0
        · simp [hc, hr]
        · simp [hc, hr]

/-- The trace of `runTool` is always one of: empty, the lookup alone, or the
lookup followed by the execution. -/
theorem runTool_calls_shape (w : World) (tool : String) (args : List String)
    (conf out : String) :
    ∃ e, (runTool w tool args conf out).2.calls = [] ∨
      (runTool w tool args conf out).2.calls = [whichInv tool e] ∨
      (runTool w tool args conf out).2.calls =
        [whichInv tool e, toolInv tool args e] := by
  cases henv : FSLWrapper.resolveEnv w conf with
  | error e =>
      refine ⟨[], Or.inl ?_⟩
      rw [runTool_eq]
      simp [henv]
  | ok env =>
      refine ⟨env, ?_⟩
      rw [runTool_eq]
      simp only [henv]
      by_cases hc : (w.exec (whichInv tool env)).returncode ≠ 0 ∨
          (w.exec (whichInv tool env)).stdout = ""
      · rw [if_pos hc]
        exact Or.inr (Or.inl rfl)
      · rw [if_neg hc]
        by_cases hr : (w.exec (toolInv tool args env)).returncode = 0
        · rw [if_pos hr]
          exact Or.inr (Or.inr rfl)
        · rw [if_neg hr]
          exact Or.inr (Or.inr rfl)

/-- `runTool` resolves the environment exactly once, on every control
path. -/
theorem runTool_envResolutions (w : World) (tool : String) (args : List String)
    (conf out : String) :
    (runTool w tool args conf out).2.envResolutions = 1 := by
  cases henv : FSLWrapper.resolveEnv w conf with
  | error e => rw [runTool_eq]; simp [henv]
  | ok env =>
      rw [runTool_eq]
      simp only [henv]
      by_cases hc : (w.exec (whichInv tool env)).returncode ≠ 0 ∨
          (w.exec (whichInv tool env)).stdout = ""
      · rw [if_pos hc]
      · rw [if_neg hc]
        by_cases hr : (w.exec (toolInv tool args env)).returncode = 0
        · rw [if_pos hr]
        · rw [if_neg hr]

/-- Every invocation in the trace of `runTool` carries the resolved
environment mapping as the whole subprocess environment, and its argument
vector starts with the binary being run (`which` or the tool itself). -/
theorem runTool_inv_mem (w : World) (tool : String) (args : List String)
    (conf out : String) (inv : Invocation)
    (h : inv ∈ (runTool w tool args conf out).2.calls) :
    ∃ e, FSLWrapper.resolveEnv w conf = .ok e ∧ inv.env = e ∧
      (inv.argv.head? = some "which" ∨ inv.argv.head? = some tool) := by
  rw [runTool_eq] at h
  cases henv : FSLWrapper.resolveEnv w conf with
  | error e => simp only [henv] at h; simp at h
  | ok env =>
      simp only [henv] at h
      refine ⟨env, rfl, ?_⟩
      by_cases hc : (w.exec (whichInv tool env)).returncode ≠ 0 ∨
          (w.exec (whichInv tool env)).stdout = ""
      · rw [if_pos hc] at h
        simp only [List.mem_singleton] at h
        subst h
        exact ⟨rfl, Or.inl rfl⟩
      · rw [if_neg hc] at h
        by_cases hr : (w.exec (toolInv tool args env)).returncode = 0
        · rw [if_pos hr] at h
          simp only [List.mem_cons, List.mem_singleton, List.not_mem_nil,
            or_false] at h
          rcases h with h | h
          · subst h; exact ⟨rfl, Or.inl rfl⟩
          · subst h; exact ⟨rfl, Or.inr rfl⟩
        · rw [if_neg hr] at h
          simp only [List.mem_cons, List.mem_singleton, List.not_mem_nil,
            or_false] at h
          rcases h with h | h
          · subst h; exact ⟨rfl, Or.inl rfl⟩
          · subst h; exact ⟨rfl, Or.inr rfl⟩

/-- On the success path (`which` exits 0 with non-empty output, the tool
exits 0), `runTool` returns the requested output path and the full
two-invocation trace. -/
theorem runTool_success (w : World) (tool : String) (args : List String)
    (conf out : String) (e : EnvMap)
    (henv : FSLWrapper.resolveEnv w conf = .ok e)
    (h1 : (w.exec (whichInv tool e)).returncode = 0)
    (h2 : (w.exec (whichInv tool e)).stdout ≠ "")
    (h3 : (w.exec (toolInv tool args e)).returncode = 0) :
    runTool w tool args conf out =
      (.ok out, ⟨[whichInv tool e, toolInv tool args e], 1⟩) := by
  rw [runTool_eq]
  simp only [henv]
  rw [if_neg (by simp [h1, h2]), if_pos h3]

/-- C1: calling `apply_mask` on `/a/in.nii`, `/a/mask.nii`, `/a/out.nii`
with configuration `/a/conf.sh`, when both inputs exist and every subprocess
exits 0, issues exactly `which fslmaths` followed by
`fslmaths /a/in.nii -mas /a/mask.nii /a/out.nii` and returns `/a/out.nii`. -/
theorem apply_mask_scenario :
    apply_mask demoWorld "/a/in.nii" "/a/mask.nii" "/a/out.nii" "/a/conf.sh" =
      (.ok "/a/out.nii",
        ⟨[⟨["which", "fslmaths"], []⟩,
          ⟨["fslmaths", "/a/in.nii", "-mas", "/a/mask.nii", "/a/out.nii"], []⟩],
         1⟩) := by
  rfl

/-- C10: the package version string equals `"1.0.0"`, the string formatted
from the three integer components 1, 0, 0. -/
theorem version_string_eq :
    PyFslInfo.version_string = "1.0.0" ∧
    PyFslInfo.version_string =
      PyFslInfo.formatVersion PyFslInfo.version_major PyFslInfo.version_minor
        PyFslInfo.version_micro := by
  constructor
  · decide
  · rfl

/-- C2: for both helpers, if a required input path does not exist the call
fails with the invalid-input error (`ValueError`) and zero subprocesses are
spawned: the final state is `⟨[], 0⟩`, recorded before any process
launch. -/
theorem helpers_invalid_input (w : World) (input mask output conf : String) :
    (w.isfile input = false →
      fslreorient2std w input output conf =
        (.error (.invalidInput input), ⟨[], 0⟩)) ∧
    (w.isfile input = false ∨ w.isfile mask = false →
      ∃ p, apply_mask w input mask output conf =
        (.error (.invalidInput p), ⟨[], 0⟩)) := by
  constructor
  · intro h
    simp [fslreorient2std, h, initState]
  · intro h
    by_cases hi : w.isfile input = true
    · have hm : w.isfile mask = false := by
        rcases h with h | h
        · rw [h] at hi; cases hi
        · exact h
      exact ⟨mask, by simp [apply_mask, hi, hm, initState]⟩
    · simp only [Bool.not_eq_true] at hi
      exact ⟨input, by simp [apply_mask, hi, initState]⟩

/-- Witness for C2 at a world with no existing files. -/
theorem helpers_invalid_input_witness :
    fslreorient2std emptyWorld "/x/in" "/x/out" "/x/conf" =
      (.error (.invalidInput "/x/in"), ⟨[], 0⟩) ∧
    ∃ p, apply_mask emptyWorld "/x/in" "/x/m" "/x/out" "/x/conf" =
      (.error (.invalidInput p), ⟨[], 0⟩) :=
  ⟨(helpers_invalid_input emptyWorld "/x/in" "/x/m" "/x/out" "/x/conf").1 rfl,
    (helpers_invalid_input emptyWorld "/x/in" "/x/m" "/x/out" "/x/conf").2
      (Or.inl rfl)⟩

/-- C3: for both helpers, when every required input exists the spawned
subprocess trace is empty, the `which` lookup alone, or the lookup followed
by the execution — the lookup always strictly precedes the execution, and
the execution never comes first. -/
theorem lookup_before_execution (w : World) (input mask output conf : String)
    (hin : w.isfile input = true) (hmask : w.isfile mask = true) :
    (∃ e, (fslreorient2std w input output conf).2.calls = [] ∨
      (fslreorient2std w input output conf).2.calls =
        [whichInv "fslreorient2std" e] ∨
      (fslreorient2std w input output conf).2.calls =
        [whichInv "fslreorient2std" e,
          toolInv "fslreorient2std" [input, output] e]) ∧
    (∃ e, (apply_mask w input mask output conf).2.calls = [] ∨
      (apply_mask w input mask output conf).2.calls =
        [whichInv "fslmaths" e] ∨
      (apply_mask w input mask output conf).2.calls =
        [whichInv "fslmaths" e,
          toolInv "fslmaths" [input, "-mas", mask, output] e]) := by
  constructor
  · have h := runTool_calls_shape w "fslreorient2std" [input, output] conf output
    simpa [fslreorient2std, hin] using h
  · have h :=
      runTool_calls_shape w "fslmaths" [input, "-mas", mask, output] conf output
    simpa [apply_mask, hin, hmask] using h

/-- Witness for C3 at the concrete test world. -/
theorem lookup_before_execution_witness :
    ∃ e, (apply_mask demoWorld "/a/in.nii" "/a/mask.nii" "/a/out.nii"
        "/a/conf.sh").2.calls = [] ∨
      (apply_mask demoWorld "/a/in.nii" "/a/mask.nii" "/a/out.nii"
        "/a/conf.sh").2.calls = [whichInv "fslmaths" e] ∨
      (apply_mask demoWorld "/a/in.nii" "/a/mask.nii" "/a/out.nii"
        "/a/conf.sh").2.calls =
        [whichInv "fslmaths" e,
          toolInv "fslmaths"
            ["/a/in.nii", "-mas", "/a/mask.nii", "/a/out.nii"] e] :=
  (lookup_before_execution demoWorld "/a/in.nii" "/a/mask.nii" "/a/out.nii"
    "/a/conf.sh" (by decide) (by decide)).2

/-- C4: when the inputs exist, the environment resolves, the lookup exits 0
with non-empty output and the execution exits 0, each helper returns exactly
the output path the caller requested; no check that the output file exists
appears anywhere in the model. -/
theorem helper_returns_output (w : World) (input mask output conf : String)
    (e : EnvMap) (henv : FSLWrapper.resolveEnv w conf = .ok e) :
    (w.isfile input = true →
      (w.exec (whichInv "fslreorient2std" e)).returncode = 0 →
      (w.exec (whichInv "fslreorient2std" e)).stdout ≠ "" →
      (w.exec (toolInv "fslreorient2std" [input, output] e)).returncode = 0 →
      (fslreorient2std w input output conf).1 = .ok output) ∧
    (w.isfile input = true → w.isfile mask = true →
      (w.exec (whichInv "fslmaths" e)).returncode = 0 →
      (w.exec (whichInv "fslmaths" e)).stdout ≠ "" →
      (w.exec (toolInv "fslmaths" [input, "-mas", mask, output] e)).returncode
        = 0 →
      (apply_mask w input mask output conf).1 = .ok output) := by
  constructor
  · intro hin h1 h2 h3
    have h :=
      runTool_success w "fslreorient2std" [input, output] conf output e
        henv h1 h2 h3
    simp [fslreorient2std, hin, h]
  · intro hin hmask h1 h2 h3
    have h :=
      runTool_success w "fslmaths" [input, "-mas", mask, output] conf output e
        henv h1 h2 h3
    simp [apply_mask, hin, hmask, h]

/-- Witness for C4 at the concrete test world. -/
theorem helper_returns_output_witness :
    (fslreorient2std demoWorld "/a/in.nii" "/a/out.nii" "/a/conf.sh").1 =
      .ok "/a/out.nii" ∧
    (apply_mask demoWorld "/a/in.nii" "/a/mask.nii" "/a/out.nii"
      "/a/conf.sh").1 = .ok "/a/out.nii" :=
  ⟨(helper_returns_output demoWorld "/a/in.nii" "/a/mask.nii" "/a/out.nii"
      "/a/conf.sh" [] rfl).1 (by decide) rfl (by decide) rfl,
    (helper_returns_output demoWorld "/a/in.nii" "/a/mask.nii" "/a/out.nii"
      "/a/conf.sh" [] rfl).2 (by decide) (by decide) rfl (by decide) rfl⟩

/-- C5: `run` spawns exactly one subprocess with argument vector
`tool :: args` under the given environment, records it, and fails with
`ExecutionError` carrying the captured stderr and the exit code exactly when
the subprocess exits non-zero; on exit 0 it returns the captured result. -/
theorem run_contract (w : World) (e : EnvMap) (tool : String)
    (args : List String) (s : RunState) :
    (FSLWrapper.run w e tool args s).2 =
      { s with calls := s.calls ++ [⟨tool :: args, e⟩] } ∧
    ((FSLWrapper.run w e tool args s).1 =
        .error (.executionError (w.exec ⟨tool :: args, e⟩).stderr
          (w.exec ⟨tool :: args, e⟩).returncode) ↔
      (w.exec ⟨tool :: args, e⟩).returncode ≠ 0) ∧
    ((w.exec ⟨tool :: args, e⟩).returncode = 0 →
      (FSLWrapper.run w e tool args s).1 = .ok (w.exec ⟨tool :: args, e⟩)) := by
  refine ⟨?_, ⟨?_, ?_⟩, ?_⟩
  · by_cases hr : (w.exec ⟨tool :: args, e⟩).returncode = 0 <;>
      simp [FSLWrapper.run, hr]
  · intro hc
    by_contra hne
    simp [FSLWrapper.run, hne] at hc
  · intro hne
    simp [FSLWrapper.run, hne]
  · intro h0
    simp [FSLWrapper.run, h0]

/-- Witness for C5 at the concrete test world. -/
theorem run_contract_witness :
    (FSLWrapper.run demoWorld [] "fslmaths"
      ["/a/in.nii", "-mas", "/a/mask.nii", "/a/out.nii"] initState).1 =
      .ok ⟨"mock_OK", "mock_NONE", 0⟩ :=
  (run_contract demoWorld [] "fslmaths"
    ["/a/in.nii", "-mas", "/a/mask.nii", "/a/out.nii"] initState).2.2 rfl

/-- C6: `check_install` spawns exactly `which <tool>` under the given
environment, records it, and fails with `MissingToolError` exactly when the
lookup exits non-zero or prints nothing; otherwise it succeeds. -/
theorem check_install_contract (w : World) (e : EnvMap) (tool : String)
    (s : RunState) :
    (FSLWrapper.check_install w e tool s).2 =
      { s with calls := s.calls ++ [⟨["which", tool], e⟩] } ∧
    ((FSLWrapper.check_install w e tool s).1 = .error (.missingTool tool) ↔
      (w.exec ⟨["which", tool], e⟩).returncode ≠ 0 ∨
        (w.exec ⟨["which", tool], e⟩).stdout = "") ∧
    ((w.exec ⟨["which", tool], e⟩).returncode = 0 →
      (w.exec ⟨["which", tool], e⟩).stdout ≠ "" →
      (FSLWrapper.check_install w e tool s).1 = .ok ()) := by
  refine ⟨?_, ⟨?_, ?_⟩, ?_⟩
  · by_cases hc : (w.exec ⟨["which", tool], e⟩).returncode ≠ 0 ∨
        (w.exec ⟨["which", tool], e⟩).stdout = "" <;>
      simp [FSLWrapper.check_install, hc]
  · intro herr
    by_contra hc
    simp [FSLWrapper.check_install, hc] at herr
  · intro hc
    simp [FSLWrapper.check_install, hc]
  · intro h0 hne
    have hc : ¬((w.exec ⟨["which", tool], e⟩).returncode ≠ 0 ∨
        (w.exec ⟨["which", tool], e⟩).stdout = "") := by
      push_neg
      exact ⟨h0, hne⟩
    simp [FSLWrapper.check_install, hc]

/-- Witness for C6 at the concrete test world. -/
theorem check_install_contract_witness :
    (FSLWrapper.check_install demoWorld [] "fslmaths" initState).1 = .ok () :=
  (check_install_contract demoWorld [] "fslmaths" initState).2.2 rfl (by decide)

/-- C7: every subprocess invocation a helper issues has the resolved
environment mapping as its entire child environment, and its argument
vector starts with the binary being run: `which` for the lookup, the tool
name for the execution. -/
theorem invocation_env_and_argv (w : World) (input mask output conf : String)
    (inv : Invocation) :
    (inv ∈ (fslreorient2std w input output conf).2.calls →
      ∃ e, FSLWrapper.resolveEnv w conf = .ok e ∧ inv.env = e ∧
        (inv.argv.head? = some "which" ∨
          inv.argv.head? = some "fslreorient2std")) ∧
    (inv ∈ (apply_mask w input mask output conf).2.calls →
      ∃ e, FSLWrapper.resolveEnv w conf = .ok e ∧ inv.env = e ∧
        (inv.argv.head? = some "which" ∨
          inv.argv.head? = some "fslmaths")) := by
  constructor
  · intro h
    simp only [fslreorient2std] at h
    by_cases hin : w.isfile input = true
    · rw [if_pos hin] at h
      exact runTool_inv_mem w "fslreorient2std" [input, output] conf output inv h
    · rw [if_neg hin] at h
      simp [initState] at h
  · intro h
    simp only [apply_mask] at h
    by_cases hin : w.isfile input = true
    · rw [if_pos hin] at h
      by_cases hm : w.isfile mask = true
      · rw [if_pos hm] at h
        exact runTool_inv_mem w "fslmaths" [input, "-mas", mask, output]
          conf output inv h
      · rw [if_neg hm] at h
        simp [initState] at h
    · rw [if_neg hin] at h
      simp [initState] at h

/-- Witness for C7 at the concrete test world: the lookup invocation of
`apply_mask`. -/
theorem invocation_env_and_argv_witness :
    ∃ e, FSLWrapper.resolveEnv demoWorld "/a/conf.sh" = .ok e ∧
      (whichInv "fslmaths" []).env = e ∧
      ((whichInv "fslmaths" []).argv.head? = some "which" ∨
        (whichInv "fslmaths" []).argv.head? = some "fslmaths") :=
  (invocation_env_and_argv demoWorld "/a/in.nii" "/a/mask.nii" "/a/out.nii"
    "/a/conf.sh" (whichInv "fslmaths" [])).2 (by decide)

/-- C8: the environment-resolution step with no supplied mapping hands back
the result of sourcing the configuration script: on shell exit 0 the parsed
KEY=VALUE lines of the `env` output, and a `ConfigurationError` exactly when
the script is unreadable or the shell exits non-zero. -/
theorem fsl_version_check_contract (w : World) (shfile : String)
    (s : RunState) :
    (FSLWrapper.fsl_version_check w shfile none s).1 =
      FSLWrapper.resolveEnv w shfile ∧
    (FSLWrapper.resolveEnv w shfile = .error .configurationError ↔
      w.shellSource shfile = none ∨
        ∃ c out, w.shellSource shfile = some (c, out) ∧ c ≠ 0) ∧
    (∀ out, w.shellSource shfile = some (0, out) →
      FSLWrapper.resolveEnv w shfile = .ok (parseEnvOutput out)) ∧
    parseEnvOutput "A=1\nB=2" = [("A", "1"), ("B", "2")] := by
  refine ⟨rfl, ?_, ?_, by decide⟩
  · cases hs : w.shellSource shfile with
    | none => simp [FSLWrapper.resolveEnv, hs]
    | some p =>
        obtain ⟨c, out⟩ := p
        by_cases hc : c = 0
        · simp [FSLWrapper.resolveEnv, hs, hc]
        · simp [FSLWrapper.resolveEnv, hs, hc]
  · intro out hout
    simp [FSLWrapper.resolveEnv, hout]

/-- Witness for C8 at the concrete test world. -/
theorem fsl_version_check_contract_witness :
    (FSLWrapper.fsl_version_check demoWorld "/a/conf.sh" none initState).1 =
      .ok [] := by
  have h := fsl_version_check_contract demoWorld "/a/conf.sh" initState
  rw [h.1]
  exact h.2.2.1 "" rfl

/-- C9: with valid inputs each helper call runs the environment-resolution
step exactly once — not once per spawned subprocess and not zero times —
whatever the subprocesses do. -/
theorem env_resolved_once (w : World) (input mask output conf : String)
    (hin : w.isfile input = true) (hmask : w.isfile mask = true) :
    (fslreorient2std w input output conf).2.envResolutions = 1 ∧
    (apply_mask w input mask output conf).2.envResolutions = 1 := by
  constructor
  · simp only [fslreorient2std, if_pos hin]
    exact runTool_envResolutions w "fslreorient2std" [input, output] conf output
  · simp only [apply_mask, if_pos hin, if_pos hmask]
    exact runTool_envResolutions w "fslmaths" [input, "-mas", mask, output]
      conf output

/-- Witness for C9 at the concrete test world. -/
theorem env_resolved_once_witness :
    (fslreorient2std demoWorld "/a/in.nii" "/a/out.nii"
      "/a/conf.sh").2.envResolutions = 1 ∧
    (apply_mask demoWorld "/a/in.nii" "/a/mask.nii" "/a/out.nii"
      "/a/conf.sh").2.envResolutions = 1 :=
  env_resolved_once demoWorld "/a/in.nii" "/a/mask.nii" "/a/out.nii"
    "/a/conf.sh" (by decide) (by decide)

end PyFsl
